import Mathlib

/-!
Shallow embedding of the congestion-control and pacing core of the
neqo QUIC transport (files `pace.rs`, `hystartpp.rs`, `resume.rs`,
`sender.rs`).

Modelling conventions:
* `Instant` and `Duration` are modelled as `Nat` nanoseconds.
  `Instant.saturating_duration_since` is `Nat` truncated subtraction.
* `usize`, `u64` and `u128` values are modelled as `Nat`; where the Rust
  code saturates/falls back at a width boundary, the bound appears
  explicitly (`u64Max`, `u128Max`, `durationMax`).
* qlog/telemetry emission is a side effect with no bearing on control
  flow and is dropped.
-/

namespace Neqo

/-- u64::MAX. -/
def u64Max : Nat := 18446744073709551615

/-- u128::MAX. -/
def u128Max : Nat := 340282366920938463463374607431768211455

/-- Duration::MAX in nanoseconds: u64::MAX seconds plus 999_999_999 ns. -/
def durationMax : Nat := 18446744073709551615 * 1000000000 + 999999999

/-- Milliseconds to nanoseconds, for `Duration::from_millis`. -/
def ms (n : Nat) : Nat := n * 1000000

/-- Saturating addition of two durations, `Duration::saturating_add`. -/
def satAddDur (a b : Nat) : Nat := min (a + b) durationMax

/-! ## Pacer (`pace.rs`) -/

/-- PACER_SPEEDUP from `pace.rs`. -/
def PACER_SPEEDUP : Nat := 1

/-- Pacer state, from `struct Pacer` in `pace.rs`.
Times are `Nat` nanoseconds since an arbitrary epoch. -/
structure Pacer where
  enabled : Bool
  last_update : Nat
  next_time : Nat
  capacity : Nat
  used : Nat
  mtu : Nat
  last_packet_size : Option Nat
  iv : Nat
  start_time : Nat
  deriving Repr, DecidableEq

namespace Pacer

/-- Pacer::new. The Rust constructor asserts `m >= p`
("maximum capacity has to be at least one packet"); a firing assertion is
modelled as `none`. -/
def new (enabled : Bool) (now m p : Nat) : Option Pacer :=
  if m ≥ p then
    some { enabled := enabled
           last_update := now
           next_time := now
           capacity := 10 * p
           used := 0
           mtu := p
           last_packet_size := none
           iv := 0
           start_time := now }
  else
    none

/-- Pacer::set_mtu. -/
def set_mtu (pc : Pacer) (mtu : Nat) : Pacer := { pc with mtu := mtu }

/-- Pacer::next - pure query; `self.last_update` when disabled, else
`self.next_time` (the large commented-out block in the source is dead
code). -/
def next (pc : Pacer) (_rtt _cwnd : Nat) : Nat :=
  if !pc.enabled then pc.last_update else pc.next_time

/-- The `rtt.as_nanos().saturating_mul(x) / (cwnd * PACER_SPEEDUP)`
computation of Pacer::spend, with the `u64::try_from(..)
.map(Duration::from_nanos).unwrap_or(rtt)` fallback. -/
def intervalCalc (rtt x cwnd : Nat) : Nat :=
  let q := min (rtt * x) u128Max / (cwnd * PACER_SPEEDUP)
  if q ≤ u64Max then q else rtt

/-- Pacer::spend, from `pace.rs` (the commented-out block at the end of
the Rust function is dead code and not modelled). -/
def spend (pc : Pacer) (now rtt cwnd count : Nat) : Pacer :=
  if !pc.enabled then
    { pc with last_update := now }
  else
    -- if !self.iv.is_zero() { next_time = next_time.max(now) + iv; iv = 0 }
    let pc := if pc.iv ≠ 0 then
        { pc with next_time := max pc.next_time now + pc.iv, iv := 0 }
      else pc
    let cwnd_interval := intervalCalc rtt pc.capacity cwnd
    let elapsed := now - pc.last_update
    -- if elapsed > cwnd_interval { reset }
    let pc := if elapsed > cwnd_interval then
        { pc with used := 0, last_update := now,
                  next_time := max pc.next_time now,
                  last_packet_size := none, iv := 0 }
      else pc
    let pc := { pc with used := pc.used + count }
    let same_size := match pc.last_packet_size with
      | none => true
      | some last => last == count
    let pc := { pc with last_packet_size := some count }
    if pc.used ≥ pc.capacity || !same_size then
      let interval := intervalCalc rtt pc.used cwnd
      { pc with iv := interval, used := 0, last_update := now,
                last_packet_size := none }
    else pc

/-- An operation on a pacer after construction: a `spend` call or a
`set_mtu` call. -/
inductive Op where
  | spendOp (now rtt cwnd count : Nat)
  | setMtuOp (mtu : Nat)
  deriving Repr, DecidableEq

/-- Apply one pacer operation. -/
def applyOp (pc : Pacer) : Op → Pacer
  | .spendOp now rtt cwnd count => pc.spend now rtt cwnd count
  | .setMtuOp mtu => pc.set_mtu mtu

/-- Apply a sequence of pacer operations. -/
def applyOps (pc : Pacer) (ops : List Op) : Pacer := ops.foldl applyOp pc

end Pacer

/-! ## HyStart++ (`hystartpp.rs`) -/

/-- MIN_RTT_THRESH = 4ms. -/
def MIN_RTT_THRESH : Nat := ms 4

/-- MAX_RTT_THRESH = 16ms. -/
def MAX_RTT_THRESH : Nat := ms 16

/-- MIN_RTT_DIVISOR = 8. -/
def MIN_RTT_DIVISOR : Nat := 8

/-- N_RTT_SAMPLE = 8. -/
def N_RTT_SAMPLE : Nat := 8

/-- CSS_GROWTH_DIVISOR = 4. -/
def CSS_GROWTH_DIVISOR : Nat := 4

/-- CSS_ROUNDS = 5. -/
def CSS_ROUNDS : Nat := 5

/-- Ord::clamp on durations (here always called with min 4ms ≤ max 16ms). -/
def clampDur (v lo hi : Nat) : Nat :=
  if v < lo then lo else if v > hi then hi else v

/-- HyStart++ state, `enum State` in `hystartpp.rs`. -/
inductive HState where
  | slowStart
  | css (baseline_min_rtt : Nat) (rounds : Nat)
  | congestionAvoidance
  deriving Repr, DecidableEq

/-- HyStart++ detector, `struct HystartPP` in `hystartpp.rs`. -/
structure HystartPP where
  enabled : Bool
  state : HState
  last_round_min_rtt : Nat
  current_round_min_rtt : Nat
  rtt_sample_count : Nat
  window_end : Option Nat
  deriving Repr, DecidableEq

namespace HystartPP

/-- HystartPP::disabled (`Self::default()`). -/
def disabled : HystartPP :=
  { enabled := false
    state := .slowStart
    last_round_min_rtt := 0
    current_round_min_rtt := 0
    rtt_sample_count := 0
    window_end := none }

/-- HystartPP::new. -/
def new : HystartPP :=
  { enabled := true
    state := .slowStart
    last_round_min_rtt := durationMax
    current_round_min_rtt := durationMax
    rtt_sample_count := 0
    window_end := none }

/-- HystartPP::on_sent. -/
def on_sent (h : HystartPP) (pkt_num : Nat) : HystartPP :=
  if !h.enabled || h.window_end.isSome then h
  else
    { h with window_end := some pkt_num
             last_round_min_rtt := h.current_round_min_rtt
             current_round_min_rtt := durationMax
             rtt_sample_count := 0 }

/-- HystartPP::on_ack. The `ack` argument is the acked packet's number
and `rtt` the externally supplied RTT sample (`now` is unused by the
Rust body apart from logging). -/
def on_ack (h : HystartPP) (ackPn : Nat) (rtt : Nat) (_now : Nat) : HystartPP :=
  if !h.enabled then h
  else
    let h := { h with rtt_sample_count := h.rtt_sample_count + 1
                      current_round_min_rtt := min h.current_round_min_rtt rtt }
    match h.state with
    | .slowStart =>
      -- round completion check
      let h := match h.window_end with
        | some end_pkt => if end_pkt ≤ ackPn then { h with window_end := none } else h
        | none => h
      if h.rtt_sample_count ≥ N_RTT_SAMPLE
          ∧ h.current_round_min_rtt ≠ durationMax
          ∧ h.last_round_min_rtt ≠ durationMax then
        let rtt_thresh :=
          clampDur (h.last_round_min_rtt / MIN_RTT_DIVISOR) MIN_RTT_THRESH MAX_RTT_THRESH
        if h.current_round_min_rtt ≥ satAddDur h.last_round_min_rtt rtt_thresh then
          { h with state := .css h.current_round_min_rtt
                            (if h.window_end.isSome then 1 else 0) }
        else h
      else h
    | .css baseline_min_rtt rounds =>
      let h := if h.rtt_sample_count ≥ N_RTT_SAMPLE
                  ∧ h.current_round_min_rtt < baseline_min_rtt then
          { h with state := .slowStart }
        else h
      match h.window_end with
      | some end_pkt =>
        if end_pkt ≤ ackPn then
          let rounds := rounds + 1
          { h with window_end := none
                   state := if rounds ≥ CSS_ROUNDS then .congestionAvoidance
                            else .css baseline_min_rtt rounds }
        else h
      | none => h
    | .congestionAvoidance => h

/-- HystartPP::on_congestion. -/
def on_congestion (h : HystartPP) : HystartPP :=
  if !h.enabled then h else { h with state := .congestionAvoidance }

/-- HystartPP::cwnd_increase. -/
def cwnd_increase (h : HystartPP) (increase : Nat) (_max_datagram_size : Nat) : Nat :=
  if !h.enabled then increase
  else
    match h.state with
    | .css _ _ => increase / CSS_GROWTH_DIVISOR
    | .slowStart => increase
    | .congestionAvoidance => increase

end HystartPP

/-! ## Careful resume (`resume.rs`) -/

/-- Careful-resume phase, `enum State` in `resume.rs`. -/
inductive RState where
  | reconnaissance (acked_bytes : Nat)
  | jumping
  | unvalidated (start : Nat)
  | validating
  | safeRetreat
  | normal
  deriving Repr, DecidableEq

/-- SavedParameters (`resume.rs`). `rtt` in nanoseconds. -/
structure SavedParameters where
  rtt : Nat
  cwnd : Nat
  enabled : Bool
  deriving Repr, DecidableEq

/-- Careful-resume machine, `struct Resume` in `resume.rs` (the qlog
handle is dropped; `ssthresh` is the `Option<u64>` field). -/
structure Resume where
  enabled : Bool
  state : RState
  cwnd : Nat
  pipesize : Nat
  first_unvalidated_pkt : Nat
  last_unvalidated_pkt : Nat
  ssthresh : Option Nat
  saved : SavedParameters
  deriving Repr, DecidableEq

namespace Resume

/-- Resume::disabled. -/
def disabled : Resume :=
  { enabled := false
    state := .reconnaissance 0
    cwnd := 0
    pipesize := 0
    first_unvalidated_pkt := 0
    last_unvalidated_pkt := 0
    ssthresh := none
    saved := { rtt := 0, cwnd := 0, enabled := false } }

/-- Resume::with_paramters (sic). -/
def with_paramters (saved : SavedParameters) : Resume :=
  { enabled := saved.enabled
    state := .reconnaissance 0
    cwnd := 0
    pipesize := 0
    first_unvalidated_pkt := 0
    last_unvalidated_pkt := 0
    ssthresh := none
    saved := saved }

/-- Resume::maybe_jump (`change_state` only emits qlog besides the state
assignment, so it is the plain state update here). -/
def maybe_jump (r : Resume) (rtt initial_cwnd : Nat) (_now : Nat) :
    Resume × Option Nat :=
  match r.state with
  | .reconnaissance acked_bytes =>
    if acked_bytes ≥ initial_cwnd then
      let jump_cwnd := r.saved.cwnd / 2
      if jump_cwnd ≤ r.cwnd then
        ({ r with state := .normal }, none)
      else if rtt ≤ r.saved.rtt / 2 ∨ r.saved.rtt * 10 ≤ rtt then
        ({ r with state := .normal }, none)
      else
        ({ r with pipesize := r.cwnd, cwnd := jump_cwnd, state := .jumping },
         some jump_cwnd)
    else (r, none)
  | _ => (r, none)

/-- Resume::maybe_rtt_exceeded. -/
def maybe_rtt_exceeded (r : Resume) (start now rtt flightsize : Nat) :
    Resume × Option Nat :=
  if now - start < rtt then (r, none)
  else ({ r with state := .validating }, some flightsize)

/-- Resume::enter_validating. -/
def enter_validating (r : Resume) (flightsize : Nat) (_now : Nat) :
    Resume × Nat :=
  if r.pipesize < flightsize then
    ({ r with state := .validating }, flightsize)
  else
    ({ r with state := .normal }, r.pipesize)

/-- Resume::on_ack. The acked packet contributes its packet number
`ackPn` and length `ackLen`. -/
def on_ack (r : Resume) (ackPn ackLen rtt flightsize cwnd initial_cwnd now : Nat) :
    Resume × Option Nat × Option Nat :=
  if !r.enabled then (r, none, none)
  else
    let r := { r with cwnd := cwnd }
    match r.state with
    | .reconnaissance acked_bytes =>
      let r := { r with state := .reconnaissance (acked_bytes + ackLen) }
      let (r, j) := maybe_jump r rtt initial_cwnd now
      (r, j, none)
    | .unvalidated start =>
      let r := { r with pipesize := r.pipesize + ackLen }
      if r.first_unvalidated_pkt ≤ ackPn then
        let (r, c) := enter_validating r flightsize now
        (r, some c, none)
      else
        let (r, j) := maybe_rtt_exceeded r start now rtt flightsize
        (r, j, none)
    | .validating =>
      let r := { r with pipesize := r.pipesize + ackLen }
      if r.last_unvalidated_pkt ≤ ackPn then
        ({ r with state := .normal }, none, none)
      else (r, none, none)
    | .safeRetreat =>
      let r := { r with pipesize := r.pipesize + ackLen }
      if ackPn < r.last_unvalidated_pkt then (r, none, none)
      else
        let r := { r with ssthresh := some r.pipesize, state := .normal }
        (r, none, r.ssthresh)
    | _ => (r, none, none)

/-- Resume::on_sent. -/
def on_sent (r : Resume) (cwnd largest_pkt_sent rtt flightsize : Nat)
    (app_limited : Bool) (now : Nat) : Resume × Option Nat :=
  if !r.enabled then (r, none)
  else
    let r := { r with cwnd := cwnd }
    if app_limited then (r, none)
    else
      match r.state with
      | .reconnaissance _ =>
        -- both the `largest_pkt_sent == 0` arm (qlog only) and the
        -- catch-all leave the state unchanged and return None
        (r, none)
      | .jumping =>
        ({ r with first_unvalidated_pkt := largest_pkt_sent,
                  state := .unvalidated now }, none)
      | .unvalidated start =>
        let r := { r with last_unvalidated_pkt := largest_pkt_sent }
        if flightsize ≥ cwnd then
          let (r, c) := enter_validating r flightsize now
          (r, some c)
        else
          maybe_rtt_exceeded r start now rtt flightsize
      | _ => (r, none)

/-- Resume::on_congestion (shared body of on_ecn / on_packetloss). -/
def on_congestion (r : Resume) (_now : Nat) : Resume × Option Nat :=
  if !r.enabled then (r, none)
  else
    match r.state with
    | .unvalidated _ => ({ r with state := .safeRetreat }, some (r.pipesize / 2))
    | .validating => ({ r with state := .safeRetreat }, some (r.pipesize / 2))
    | .reconnaissance _ => ({ r with state := .normal }, none)
    | _ => (r, none)

/-- Resume::on_ecn. -/
def on_ecn (r : Resume) (now : Nat) : Resume × Option Nat := on_congestion r now

/-- Resume::on_packetloss. -/
def on_packetloss (r : Resume) (now : Nat) : Resume × Option Nat :=
  on_congestion r now

end Resume

/-- An operation on a `Resume` machine together with its call arguments,
covering the four public entry points. -/
inductive ROp where
  | sent (cwnd largest_pkt_sent rtt flightsize : Nat) (app_limited : Bool) (now : Nat)
  | ack (ackPn ackLen rtt flightsize cwnd initial_cwnd now : Nat)
  | ecn (now : Nat)
  | packetloss (now : Nat)
  deriving Repr, DecidableEq

/-- One step of the `Resume` machine: the updated machine together with
the proposed window (first component) and proposed slow-start threshold
(second component; only `on_ack` can propose one). -/
def Resume.step (r : Resume) : ROp → Resume × Option Nat × Option Nat
  | .sent cwnd largest rtt flight app_limited now =>
    ((r.on_sent cwnd largest rtt flight app_limited now).1,
     (r.on_sent cwnd largest rtt flight app_limited now).2, none)
  | .ack ackPn ackLen rtt flight cwnd initial now =>
    r.on_ack ackPn ackLen rtt flight cwnd initial now
  | .ecn now => ((r.on_ecn now).1, (r.on_ecn now).2, none)
  | .packetloss now => ((r.on_packetloss now).1, (r.on_packetloss now).2, none)

/-- Run a sequence of `Resume` operations, keeping only the machine. -/
def Resume.run (r : Resume) (ops : List ROp) : Resume :=
  ops.foldl (fun r op => (r.step op).1) r

/-- Numeric tag of a careful-resume phase, in the documented forward
order Reconnaissance(0) → Jumping(1) → Unvalidated(2) → Validating(3) →
SafeRetreat(4) → Normal(5). -/
def RState.tag : RState → Nat
  | .reconnaissance _ => 0
  | .jumping => 1
  | .unvalidated _ => 2
  | .validating => 3
  | .safeRetreat => 4
  | .normal => 5

/-- The phase transitions which the careful-resume state machine may
take in a single operation (tags per `RState.tag`): staying put, the
forward chain Reconnaissance → Jumping → Unvalidated → Validating →
Normal including the forward skips Reconnaissance → Normal (abort) and
Unvalidated → Normal (rate limited), and the sole reversion path
Unvalidated/Validating → SafeRetreat → Normal. -/
def allowedEdge (a b : Nat) : Prop :=
  (a, b) ∈ [(0, 0), (0, 1), (0, 5), (1, 1), (1, 2), (2, 2), (2, 3), (2, 4),
            (2, 5), (3, 3), (3, 4), (3, 5), (4, 4), (4, 5), (5, 5)]

instance (a b : Nat) : Decidable (allowedEdge a b) := by
  unfold allowedEdge; infer_instance

/-! ## Orchestrator fragment (`sender.rs`) -/

/-- The pacing/careful-resume part of `struct PacketSender`
(`sender.rs`); the boxed congestion-control strategy is an external
collaborator whose observables are passed as arguments below. -/
structure PacketSender where
  pacer : Pacer
  resume : Resume
  deriving Repr, DecidableEq

/-- PacketSender::on_packet_sent, restricted to its effect on the pacer
and careful resume. The congestion-control strategy is external: its
window at the pacer call (`ccCwnd0`), and its window and bytes in flight
after `cc.on_packet_sent` (`ccCwnd1`, `ccBif1`), enter as arguments.
The returned option is the jump handed to `cc.set_cwnd`, if any.
Note the careful-resume call passes `app_limited = false` literally, as
in the source. -/
def PacketSender.on_packet_sent (s : PacketSender)
    (ccCwnd0 ccCwnd1 ccBif1 : Nat) (pn len : Nat) (ack_eliciting : Bool)
    (time_sent rtt now : Nat) : PacketSender × Option Nat :=
  let pacer := if ack_eliciting then s.pacer.spend time_sent rtt ccCwnd0 len
               else s.pacer
  let rj := s.resume.on_sent ccCwnd1 pn rtt ccBif1 false now
  ({ pacer := pacer, resume := rj.1 }, rj.2)

/-- Resume::on_sent with the application-limited early return deleted:
used to express that the branch is dead through the orchestrator. -/
def Resume.on_sent_no_app_limited (r : Resume)
    (cwnd largest_pkt_sent rtt flightsize now : Nat) : Resume × Option Nat :=
  if !r.enabled then (r, none)
  else
    let r := { r with cwnd := cwnd }
    match r.state with
    | .reconnaissance _ => (r, none)
    | .jumping =>
      ({ r with first_unvalidated_pkt := largest_pkt_sent,
                state := .unvalidated now }, none)
    | .unvalidated start =>
      let r := { r with last_unvalidated_pkt := largest_pkt_sent }
      if flightsize ≥ cwnd then
        let (r, c) := r.enter_validating flightsize now
        (r, some c)
      else
        r.maybe_rtt_exceeded start now rtt flightsize
    | _ => (r, none)

/-! ## Helper predicates and concrete instances used by the theorems -/

/-- Whether an ack with packet number `pn` closes the round whose end is
`we` (the `window_end.is_some_and(|end_pkt| end_pkt <= ack.pn())` test
of `hystartpp.rs`). -/
def roundClosed (we : Option Nat) (pn : Nat) : Bool :=
  match we with
  | some end_pkt => end_pkt ≤ pn
  | none => false

/-- Whether the measurement round is still open after the ack with
packet number `pn` has been processed (the round neither was already
closed nor is closed by this ack). -/
def stillOpenAfter (we : Option Nat) (pn : Nat) : Bool :=
  match we with
  | some end_pkt => pn < end_pkt
  | none => false

/-- The enabled pacer of the claims: fresh at time 0 with reference
packet size 1000 (result of `Pacer::new(true, 0, 1000, 1000)`). -/
def pacerEven : Pacer :=
  { enabled := true, last_update := 0, next_time := 0, capacity := 10000,
    used := 0, mtu := 1000, last_packet_size := none, iv := 0, start_time := 0 }

/-- A disabled pacer fresh at time 0 (result of
`Pacer::new(false, 0, 1000, 1000)`). -/
def pacerDisabled : Pacer :=
  { enabled := false, last_update := 0, next_time := 0, capacity := 10000,
    used := 0, mtu := 1000, last_packet_size := none, iv := 0, start_time := 0 }

/-- The saved parameters of claim C1: rtt 600ms, cwnd 3_000_000, enabled. -/
def savedC1 : SavedParameters := { rtt := ms 600, cwnd := 3000000, enabled := true }

/-- A careful-resume machine in Reconnaissance with 10000 accumulated
acked bytes, carrying the C1 saved parameters. -/
def resumeC1 : Resume :=
  { enabled := true, state := .reconnaissance 10000, cwnd := 0, pipesize := 0,
    first_unvalidated_pkt := 0, last_unvalidated_pkt := 0, ssthresh := none,
    saved := savedC1 }

/-- A careful-resume machine in Unvalidated (entered at time 0) with
pipesize 5000, used for claim C2. -/
def resumeC2 : Resume :=
  { enabled := true, state := .unvalidated 0, cwnd := 0, pipesize := 5000,
    first_unvalidated_pkt := 0, last_unvalidated_pkt := 0, ssthresh := none,
    saved := savedC1 }

/-- An enabled HyStart++ detector in SlowStart: 7 samples so far,
last-round minimum 100ms, current-round minimum still unset, round open
until packet 5. Used for claim C4. -/
def hystartC4 : HystartPP :=
  { enabled := true, state := .slowStart, last_round_min_rtt := ms 100,
    current_round_min_rtt := durationMax, rtt_sample_count := 7,
    window_end := some 5 }

/-- An enabled HyStart++ detector in ConservativeSlowStart with baseline
100ms and 0 completed rounds: 7 samples so far, current-round minimum
still unset, round open until packet 10. Used for claim C5. -/
def hystartC5 : HystartPP :=
  { enabled := true, state := .css (ms 100) 0, last_round_min_rtt := ms 100,
    current_round_min_rtt := durationMax, rtt_sample_count := 7,
    window_end := some 10 }

/-! ## Theorems -/

/-- C3: code-bug record. For the enabled pacer freshly constructed at
time 0 with reference packet size 1000 (`pacerEven`), `next` before any
spend returns the construction time, as claimed; but after one
`spend(now, 1000ms, 10000, 1000)` the pacer's `next` still returns the
construction time 0, not `now + 50ms` (= 50000000 ns = 1000ms/20) as
the claim, the spec and the crate's own `even` test demand: the send is
below the burst capacity of 10000 bytes, so the rewritten `spend` sets
no interval and never moves `next_time`. -/
theorem c3_pacer_even_diverges :
    Pacer.new true 0 1000 1000 = some pacerEven
    ∧ pacerEven.next (ms 1000) 10000 = 0
    ∧ (pacerEven.spend 0 (ms 1000) 10000 1000).next (ms 1000) 10000 = 0
    ∧ (pacerEven.spend 0 (ms 1000) 10000 1000).next (ms 1000) 10000
        ≠ 0 + ms 1000 / 20 := by
  refine ⟨by decide, by decide, by decide, by decide⟩

/-- C9 counterexample: constructing a pacer with a zero reference packet
size does NOT fire the constructor's assertion — `Pacer::new(true, 0, 5, 0)`
satisfies `m >= p` (5 ≥ 0) and returns a usable pacer, contradicting the
claim that a zero reference packet size fails fast at construction. -/
theorem c9_counterexample :
    Pacer.new true 0 5 0
      = some { enabled := true, last_update := 0, next_time := 0, capacity := 0,
               used := 0, mtu := 0, last_packet_size := none, iv := 0,
               start_time := 0 } := by
  decide

/-- C9 amended: the constructor's assertion (`m >= p`) fires exactly when
the maximum burst capacity is smaller than one packet; a zero reference
packet size is accepted (since `m ≥ 0` always holds), not rejected. -/
theorem c9_new_fails_iff (enabled : Bool) (now m p : Nat) :
    Pacer.new enabled now m p = none ↔ m < p := by
  unfold Pacer.new
  split
  · simp; omega
  · simp; omega

/-- C9 amended, witness: at `m = 0 < 1 = p` the constructor fails. -/
theorem c9_new_fails_iff_witness : Pacer.new true 0 0 1 = none :=
  (c9_new_fails_iff true 0 0 1).mpr (by decide)

/-- C7 counterexample: for the disabled pacer constructed at time 0, a
single `spend` at time 1s sets `last_update := 1s` without touching
`next_time`, so `next_time < last_update` afterwards — the invariant
`next_time ≥ last_update` does not hold for every pacer at all times. -/
theorem c7_counterexample :
    Pacer.new false 0 1000 1000 = some pacerDisabled
    ∧ (pacerDisabled.spend 1000000000 (ms 1000) 10000 1000).next_time
        < (pacerDisabled.spend 1000000000 (ms 1000) 10000 1000).last_update := by
  refine ⟨by decide, by decide⟩

/-- Helper: a single `spend` never decreases `next_time`. -/
theorem spend_next_time_mono (pc : Pacer) (now rtt cwnd count : Nat) :
    pc.next_time ≤ (pc.spend now rtt cwnd count).next_time := by
  unfold Pacer.spend
  split
  · exact Nat.le_refl _
  · dsimp only
    split <;> split <;> split <;> simp <;> omega

/-- Helper: a single pacer operation never decreases `next_time`. -/
theorem applyOp_next_time_mono (pc : Pacer) (op : Pacer.Op) :
    pc.next_time ≤ (pc.applyOp op).next_time := by
  cases op with
  | spendOp now rtt cwnd count => exact spend_next_time_mono pc now rtt cwnd count
  | setMtuOp mtu => exact Nat.le_refl _

/-- C7 amended: across every sequence of `spend` and `set_mtu` calls
after construction, `next_time` is monotonically non-decreasing (it
never moves into the past); the claimed `next_time ≥ last_update` is
refuted by `c7_counterexample`. -/
theorem c7_next_time_monotone (pc : Pacer) (ops : List Pacer.Op) :
    pc.next_time ≤ (pc.applyOps ops).next_time := by
  induction ops generalizing pc with
  | nil => exact Nat.le_refl _
  | cons op rest ih =>
    exact Nat.le_trans (applyOp_next_time_mono pc op) (ih (pc.applyOp op))

/-- C1 counterexample: with saved `{rtt: 600ms, cwnd: 3_000_000, enabled}`,
acked bytes 10000 ≥ initial window 10000, and a live RTT sample of
exactly 300ms — inside the claimed inclusive range [300ms, 6000ms] — the
jump check aborts to Normal with no window change instead of proposing
1_500_000: the code tests `rtt <= saved.rtt / 2`, so the endpoint 300ms
is rejected. -/
theorem c1_counterexample :
    (resumeC1.maybe_jump (ms 300) 10000 0).1.state = RState.normal
    ∧ (resumeC1.maybe_jump (ms 300) 10000 0).2 = none := by
  refine ⟨by decide, by decide⟩

/-- C1 amended: the live-RTT window that admits the jump is the OPEN
interval (300ms, 6000ms). With the C1 saved parameters, once the jump
check runs in Reconnaissance with acked bytes ≥ the initial window and
the current window below 1_500_000, a live RTT strictly between 300ms
and 6000ms makes the jump propose cwnd = 1_500_000 (half the saved
cwnd), record pipesize, and transition out of Reconnaissance to
Jumping; a live RTT ≤ 300ms (a factor of 2 or more below) or ≥ 6000ms
(a factor of 10 or more above) aborts to Normal with no window change. -/
theorem c1_jump_amended (r : Resume) (acked_bytes initial_cwnd rtt now : Nat)
    (hen : r.enabled = true) (hsaved : r.saved = savedC1)
    (hst : r.state = RState.reconnaissance acked_bytes)
    (hacked : initial_cwnd ≤ acked_bytes) (hcw : r.cwnd < 1500000) :
    (ms 300 < rtt ∧ rtt < ms 6000 →
      r.maybe_jump rtt initial_cwnd now
        = ({ r with pipesize := r.cwnd, cwnd := 1500000, state := RState.jumping },
           some 1500000))
    ∧ (rtt ≤ ms 300 ∨ ms 6000 ≤ rtt →
      r.maybe_jump rtt initial_cwnd now = ({ r with state := RState.normal }, none)) := by
  have hjump : r.saved.cwnd / 2 = 1500000 := by rw [hsaved]; decide
  have hhalf : r.saved.rtt / 2 = ms 300 := by rw [hsaved]; decide
  have hten : r.saved.rtt * 10 = ms 6000 := by rw [hsaved]; decide
  constructor
  · rintro ⟨h1, h2⟩
    unfold Resume.maybe_jump
    rw [hst]
    simp only [ge_iff_le, hacked, if_true, hjump, hhalf, hten]
    rw [if_neg (by omega), if_neg (by omega)]
  · intro h
    unfold Resume.maybe_jump
    rw [hst]
    simp only [ge_iff_le, hacked, if_true, hjump, hhalf, hten]
    rw [if_neg (by omega), if_pos (by omega)]

/-- C1 amended, witness: at the concrete machine `resumeC1`
(acked bytes 10000 ≥ initial window 10000, cwnd 0) and live RTT 400ms
the jump proposes 1_500_000 and moves to Jumping. -/
theorem c1_jump_amended_witness :
    resumeC1.maybe_jump (ms 400) 10000 0
      = ({ resumeC1 with
            pipesize := resumeC1.cwnd
            cwnd := 1500000
            state := RState.jumping }, some 1500000) :=
  (c1_jump_amended resumeC1 10000 10000 (ms 400) 0 rfl rfl rfl (by decide)
    (by decide)).1 (by decide)

/-- C2 counterexample: in Unvalidated (entered at time 0) with pipesize
5000, a send at time 300ms with rtt 100ms and flight size 4000 < cwnd
10000 fires only the elapsed-RTT trigger; although pipesize (5000) is
NOT smaller than the flight size (4000), the machine moves to Validating
proposing cwnd = flight_size = 4000 — not, as claimed, directly to
Normal proposing cwnd = pipesize: `maybe_rtt_exceeded` never consults
pipesize. -/
theorem c2_counterexample :
    resumeC2.pipesize = 5000
    ∧ (resumeC2.on_sent 10000 7 (ms 100) 4000 false (ms 300)).1.state
        = RState.validating
    ∧ (resumeC2.on_sent 10000 7 (ms 100) 4000 false (ms 300)).2 = some 4000 := by
  refine ⟨by decide, by decide, by decide⟩

/-- C2 amended: in Unvalidated, the branch on pipesize applies only to
the window-utilization trigger (`flight_size ≥ cwnd` on a send) and to
the ack-of-first-unvalidated-packet entry; the elapsed-RTT trigger (at
least one RTT since entering Unvalidated, checked on send or ack)
always transitions to Validating proposing cwnd = flight_size,
regardless of pipesize. -/
theorem c2_unvalidated_amended (r : Resume)
    (start cwnd largest rtt flightsize now : Nat)
    (hen : r.enabled = true) (hst : r.state = RState.unvalidated start) :
    (flightsize ≥ cwnd →
      r.on_sent cwnd largest rtt flightsize false now
        = (if r.pipesize < flightsize then
             ({ r with
                  cwnd := cwnd
                  last_unvalidated_pkt := largest
                  state := RState.validating }, some flightsize)
           else
             ({ r with
                  cwnd := cwnd
                  last_unvalidated_pkt := largest
                  state := RState.normal }, some r.pipesize)))
    ∧ (flightsize < cwnd → rtt ≤ now - start →
      r.on_sent cwnd largest rtt flightsize false now
        = ({ r with
              cwnd := cwnd
              last_unvalidated_pkt := largest
              state := RState.validating }, some flightsize))
    ∧ (∀ ackPn ackLen initial_cwnd, ackPn < r.first_unvalidated_pkt →
        rtt ≤ now - start →
      r.on_ack ackPn ackLen rtt flightsize cwnd initial_cwnd now
        = ({ r with
              cwnd := cwnd
              pipesize := r.pipesize + ackLen
              state := RState.validating }, some flightsize, none)) := by
  refine ⟨?_, ?_, ?_⟩
  · intro hf
    unfold Resume.on_sent
    rw [hen]
    simp only [Bool.not_true, Bool.false_eq_true, if_false, Bool.false_eq_true,
      if_false]
    rw [hst]
    simp only [ge_iff_le, hf, if_true]
    unfold Resume.enter_validating
    split <;> rfl
  · intro hf hrtt
    unfold Resume.on_sent
    rw [hen]
    simp only [Bool.not_true, Bool.false_eq_true, if_false]
    rw [hst]
    dsimp only
    rw [if_neg (by omega)]
    unfold Resume.maybe_rtt_exceeded
    rw [if_neg (by omega)]
  · intro ackPn ackLen initial_cwnd hpn hrtt
    unfold Resume.on_ack
    rw [hen]
    simp only [Bool.not_true, Bool.false_eq_true, if_false]
    rw [hst]
    dsimp only
    rw [if_neg (by omega)]
    unfold Resume.maybe_rtt_exceeded
    rw [if_neg (by omega)]

/-- C2 amended, witness: the elapsed-RTT trigger on `resumeC2` (pipesize
5000 ≥ flight size 4000) still goes to Validating with cwnd = 4000. -/
theorem c2_unvalidated_amended_witness :
    resumeC2.on_sent 10000 7 (ms 100) 4000 false (ms 300)
      = ({ resumeC2 with
            cwnd := 10000
            last_unvalidated_pkt := 7
            state := RState.validating }, some 4000) :=
  (c2_unvalidated_amended resumeC2 0 10000 7 (ms 100) 4000 (ms 300) rfl
    rfl).2.1 (by decide) (by decide)

/-- Helper: full characterization of the resulting state of an
enabled-in-SlowStart ack when the exit condition fires (see
`c4_slow_start_exit` for the claim-level statement). -/
theorem slow_start_on_ack_state (h : HystartPP) (ackPn rtt now : Nat)
    (hen : h.enabled = true) (hst : h.state = HState.slowStart)
    (hcnt : h.rtt_sample_count + 1 ≥ 8)
    (hcur : min h.current_round_min_rtt rtt ≠ durationMax)
    (hlast : h.last_round_min_rtt ≠ durationMax)
    (hsat : min h.current_round_min_rtt rtt
      ≥ satAddDur h.last_round_min_rtt
          (clampDur (h.last_round_min_rtt / 8) MIN_RTT_THRESH MAX_RTT_THRESH)) :
    (h.on_ack ackPn rtt now).state
      = HState.css (min h.current_round_min_rtt rtt)
          (if stillOpenAfter h.window_end ackPn then 1 else 0) := by
  unfold HystartPP.on_ack
  rw [hen]
  simp only [Bool.not_true, Bool.false_eq_true, if_false]
  rw [hst]
  dsimp only
  cases hwe : h.window_end with
  | none =>
    dsimp only
    split
    · split
      · simp [stillOpenAfter]
      · next hneg => exact absurd hsat hneg
    · next hneg => exact absurd ⟨hcnt, hcur, hlast⟩ hneg
  | some end_pkt =>
    dsimp only
    by_cases hclose : end_pkt ≤ ackPn
    · rw [if_pos hclose]
      have hno : ¬ ackPn < end_pkt := by omega
      dsimp only
      split
      · split
        · simp [stillOpenAfter, hno]
        · next hneg => exact absurd hsat hneg
      · next hneg => exact absurd ⟨hcnt, hcur, hlast⟩ hneg
    · rw [if_neg hclose]
      have hyes : ackPn < end_pkt := by omega
      dsimp only
      split
      · split
        · simp [stillOpenAfter, hyes]
        · next hneg => exact absurd hsat hneg
      · next hneg => exact absurd ⟨hcnt, hcur, hlast⟩ hneg

/-- C4: for every enabled HyStart++ detector in SlowStart processing an
ack, when the sample count (including this sample) reaches at least 8,
both round minimums are valid (not the MAX sentinel) after folding in
this sample, and the folded current-round minimum is at least
last_round_min_rtt + clamp(last_round_min_rtt / 8, 4ms, 16ms), the
state becomes ConservativeSlowStart with baseline the folded
current-round minimum and rounds = 1 if the round is still open after
this ack, else 0. -/
theorem c4_slow_start_exit (h : HystartPP) (ackPn rtt now : Nat)
    (hen : h.enabled = true) (hst : h.state = HState.slowStart)
    (hcnt : h.rtt_sample_count + 1 ≥ 8)
    (hcur : min h.current_round_min_rtt rtt ≠ durationMax)
    (hlast : h.last_round_min_rtt ≠ durationMax)
    (hthresh : min h.current_round_min_rtt rtt
      ≥ h.last_round_min_rtt
          + clampDur (h.last_round_min_rtt / 8) (ms 4) (ms 16)) :
    (h.on_ack ackPn rtt now).state
      = HState.css (min h.current_round_min_rtt rtt)
          (if stillOpenAfter h.window_end ackPn then 1 else 0) := by
  have hsat : min h.current_round_min_rtt rtt
      ≥ satAddDur h.last_round_min_rtt
          (clampDur (h.last_round_min_rtt / 8) MIN_RTT_THRESH MAX_RTT_THRESH) := by
    have hle : satAddDur h.last_round_min_rtt
        (clampDur (h.last_round_min_rtt / 8) MIN_RTT_THRESH MAX_RTT_THRESH)
        ≤ h.last_round_min_rtt
          + clampDur (h.last_round_min_rtt / 8) MIN_RTT_THRESH MAX_RTT_THRESH :=
      Nat.min_le_left _ _
    have hms4 : MIN_RTT_THRESH = ms 4 := rfl
    have hms16 : MAX_RTT_THRESH = ms 16 := rfl
    rw [hms4, hms16] at hle ⊢
    omega
  exact slow_start_on_ack_state h ackPn rtt now hen hst hcnt hcur hlast hsat

/-- C4 witness: the concrete detector `hystartC4` (7 prior samples,
last-round minimum 100ms, round open until packet 5) acking packet 3
with a 120ms sample (≥ 100ms + clamp(12.5ms, 4ms, 16ms) = 112.5ms)
exits to ConservativeSlowStart with baseline 120ms and rounds = 1
(mid-round). -/
theorem c4_slow_start_exit_witness :
    (hystartC4.on_ack 3 (ms 120) 0).state = HState.css (ms 120) 1 := by
  have h := c4_slow_start_exit hystartC4 3 (ms 120) 0 rfl rfl (by decide)
    (by decide) (by decide) (by decide)
  simpa using h

/-- Helper: full characterization of the resulting state of an ack
processed by an enabled detector in ConservativeSlowStart: the
round-completion update runs after - and overwrites - the
spurious-exit reversion. -/
theorem css_on_ack_state (h : HystartPP) (baseline rounds ackPn rtt now : Nat)
    (hen : h.enabled = true) (hst : h.state = HState.css baseline rounds) :
    (h.on_ack ackPn rtt now).state
      = (if roundClosed h.window_end ackPn = true then
           (if rounds + 1 ≥ CSS_ROUNDS then HState.congestionAvoidance
            else HState.css baseline (rounds + 1))
         else if h.rtt_sample_count + 1 ≥ N_RTT_SAMPLE
                  ∧ min h.current_round_min_rtt rtt < baseline then
           HState.slowStart
         else HState.css baseline rounds) := by
  unfold HystartPP.on_ack
  rw [hen]
  simp only [Bool.not_true, Bool.false_eq_true, if_false]
  rw [hst]
  dsimp only
  by_cases hrev : h.rtt_sample_count + 1 ≥ N_RTT_SAMPLE
      ∧ min h.current_round_min_rtt rtt < baseline
  · rw [if_pos hrev]
    dsimp only
    cases hwe : h.window_end with
    | none => simp [roundClosed, hrev]
    | some end_pkt =>
      dsimp only
      by_cases hle : end_pkt ≤ ackPn
      · rw [if_pos hle]
        simp [roundClosed, hle]
      · rw [if_neg hle]
        simp [roundClosed, hle, hrev]
  · rw [if_neg hrev]
    dsimp only
    cases hwe : h.window_end with
    | none =>
      simp only [roundClosed, hst]
      simp only [Bool.false_eq_true, if_false]
      rw [if_neg (fun hcon => hrev ⟨hcon.1, hcon.2⟩)]
    | some end_pkt =>
      dsimp only
      by_cases hle : end_pkt ≤ ackPn
      · rw [if_pos hle]
        simp [roundClosed, hle]
      · rw [if_neg hle]
        simp only [roundClosed, hst]
        rw [if_neg (by simpa using hle)]
        rw [if_neg (fun hcon => hrev ⟨hcon.1, hcon.2⟩)]

/-- C5 counterexample: the concrete detector `hystartC5` is enabled, in
ConservativeSlowStart with baseline 100ms and 0 completed rounds, has 8
samples after this ack, and the current-round minimum (50ms) is below
the baseline - yet acking packet 10, which also completes the current
round (window end 10), leaves the detector in ConservativeSlowStart
with rounds = 1, NOT in SlowStart: the round-completion branch
overwrites the spurious-exit reversion within the same call. -/
theorem c5_counterexample :
    hystartC5.rtt_sample_count + 1 ≥ 8
    ∧ min hystartC5.current_round_min_rtt (ms 50) < ms 100
    ∧ (hystartC5.on_ack 10 (ms 50) 0).state = HState.css (ms 100) 1
    ∧ (hystartC5.on_ack 10 (ms 50) 0).state ≠ HState.slowStart := by
  refine ⟨by decide, by decide, by decide, by decide⟩

/-- C5 amended: in ConservativeSlowStart with at least 8 samples in the
current round and the current-round minimum below the stored baseline,
the ack reverts the state to SlowStart PROVIDED the ack does not also
complete the current round; an ack that completes the round overwrites
any reversion, leaving ConservativeSlowStart with rounds + 1 completed
rounds (or CongestionAvoidance once that reaches 5); and the transition
to CongestionAvoidance in this call happens exactly when the ack
completes a round and the completed-round count reaches 5. -/
theorem c5_css_amended (h : HystartPP) (baseline rounds ackPn rtt now : Nat)
    (hen : h.enabled = true) (hst : h.state = HState.css baseline rounds) :
    (h.rtt_sample_count + 1 ≥ 8 → min h.current_round_min_rtt rtt < baseline →
      roundClosed h.window_end ackPn = false →
      (h.on_ack ackPn rtt now).state = HState.slowStart)
    ∧ (roundClosed h.window_end ackPn = true →
      (h.on_ack ackPn rtt now).state
        = (if rounds + 1 ≥ 5 then HState.congestionAvoidance
           else HState.css baseline (rounds + 1)))
    ∧ ((h.on_ack ackPn rtt now).state = HState.congestionAvoidance
        ↔ roundClosed h.window_end ackPn = true ∧ rounds + 1 ≥ 5) := by
  have hmain := css_on_ack_state h baseline rounds ackPn rtt now hen hst
  refine ⟨?_, ?_, ?_⟩
  · intro hcnt hbase hnc
    rw [hmain, hnc]
    simp [hcnt, hbase, N_RTT_SAMPLE]
  · intro hc
    rw [hmain, hc]
    simp [CSS_ROUNDS]
  · rw [hmain]
    constructor
    · intro hca
      by_cases hc : roundClosed h.window_end ackPn = true
      · refine ⟨hc, ?_⟩
        rw [hc] at hca
        simp only [if_true] at hca
        by_cases hr : rounds + 1 ≥ 5
        · exact hr
        · rw [if_neg (by simpa [CSS_ROUNDS] using hr)] at hca
          exact absurd hca (by simp)
      · exfalso
        have hcf : roundClosed h.window_end ackPn = false := by
          simpa using hc
        rw [hcf] at hca
        simp only [Bool.false_eq_true, if_false] at hca
        revert hca
        split <;> simp
    · rintro ⟨hc, hr⟩
      rw [hc]
      simp [CSS_ROUNDS, hr]

/-- C5 amended, witness: `hystartC5` acking packet 9 (round still open)
with a 50ms sample reverts to SlowStart. -/
theorem c5_css_amended_witness :
    (hystartC5.on_ack 9 (ms 50) 0).state = HState.slowStart :=
  (c5_css_amended hystartC5 (ms 100) 0 9 (ms 50) 0 rfl rfl).1 (by decide)
    (by decide) (by decide)

/-- Helper: staying in the same phase is always an allowed edge. -/
theorem allowedEdge_refl (s : RState) : allowedEdge s.tag s.tag := by
  cases s <;> dsimp only [RState.tag] <;> decide

/-- Helper: every `on_sent` call takes an allowed phase edge. -/
theorem on_sent_edge (r : Resume) (cwnd largest rtt flightsize : Nat)
    (al : Bool) (now : Nat) :
    allowedEdge r.state.tag
      ((r.on_sent cwnd largest rtt flightsize al now).1.state.tag) := by
  unfold Resume.on_sent Resume.enter_validating Resume.maybe_rtt_exceeded
  by_cases he : r.enabled
  · simp only [he, Bool.not_true, Bool.false_eq_true, if_false]
    by_cases hal : al
    · simp only [hal, if_true]
      exact allowedEdge_refl r.state
    · simp only [hal, Bool.false_eq_true, if_false]
      (try dsimp only)
      cases hs : r.state <;> (try dsimp only) <;> (repeat' split) <;>
        (try dsimp only) <;> (try dsimp only [RState.tag]) <;>
        first
          | decide
          | (rw [hs]; (try dsimp only [RState.tag]); decide)
          | exact allowedEdge_refl r.state
  · have h0 : r.enabled = false := by simpa using he
    simp only [h0, Bool.not_false, if_true]
    exact allowedEdge_refl r.state

/-- Helper: every `on_ack` call takes an allowed phase edge. -/
theorem on_ack_edge (r : Resume)
    (ackPn ackLen rtt flightsize cwnd initial_cwnd now : Nat) :
    allowedEdge r.state.tag
      ((r.on_ack ackPn ackLen rtt flightsize cwnd initial_cwnd now).1.state.tag) := by
  unfold Resume.on_ack Resume.maybe_jump Resume.enter_validating
    Resume.maybe_rtt_exceeded
  by_cases he : r.enabled
  · simp only [he, Bool.not_true, Bool.false_eq_true, if_false]
    (try dsimp only)
    cases hs : r.state <;> (try dsimp only) <;> (repeat' split) <;>
      (try dsimp only) <;> (try dsimp only [RState.tag]) <;>
      first
        | decide
        | (rw [hs]; (try dsimp only [RState.tag]); decide)
        | exact allowedEdge_refl r.state
  · have h0 : r.enabled = false := by simpa using he
    simp only [h0, Bool.not_false, if_true]
    exact allowedEdge_refl r.state

/-- Helper: every `on_congestion` call (hence `on_ecn` and
`on_packetloss`) takes an allowed phase edge. -/
theorem on_congestion_edge (r : Resume) (now : Nat) :
    allowedEdge r.state.tag ((r.on_congestion now).1.state.tag) := by
  unfold Resume.on_congestion
  by_cases he : r.enabled
  · simp only [he, Bool.not_true, Bool.false_eq_true, if_false]
    cases hs : r.state <;> (try dsimp only) <;>
      (try dsimp only [RState.tag]) <;>
      first
        | decide
        | (rw [hs]; (try dsimp only [RState.tag]); decide)
        | exact allowedEdge_refl r.state
  · have h0 : r.enabled = false := by simpa using he
    simp only [h0, Bool.not_false, if_true]
    exact allowedEdge_refl r.state

/-- Helper: every operation takes an allowed phase edge. -/
theorem step_edge (r : Resume) (op : ROp) :
    allowedEdge r.state.tag ((r.step op).1.state.tag) := by
  cases op with
  | sent cwnd largest rtt flight al now =>
    exact on_sent_edge r cwnd largest rtt flight al now
  | ack ackPn ackLen rtt flight cwnd initial now =>
    exact on_ack_edge r ackPn ackLen rtt flight cwnd initial now
  | ecn now => exact on_congestion_edge r now
  | packetloss now => exact on_congestion_edge r now

/-- Helper: from Normal, every operation keeps the phase Normal and
proposes neither a window nor a threshold. -/
theorem step_normal (r : Resume) (op : ROp) (hn : r.state = RState.normal) :
    (r.step op).1.state = RState.normal
    ∧ (r.step op).2.1 = none ∧ (r.step op).2.2 = none := by
  cases op with
  | sent cwnd largest rtt flight al now =>
    unfold Resume.step Resume.on_sent
    by_cases he : r.enabled
    · simp only [he, Bool.not_true, Bool.false_eq_true, if_false]
      by_cases hal : al
      · simp [hal, hn]
      · simp only [hal, Bool.false_eq_true, if_false]
        (try dsimp only)
        rw [hn]
        refine ⟨?_, ?_, ?_⟩ <;> simp_all
    · have h0 : r.enabled = false := by simpa using he
      simp [h0, hn]
  | ack ackPn ackLen rtt flight cwnd initial now =>
    unfold Resume.step Resume.on_ack
    by_cases he : r.enabled
    · simp only [he, Bool.not_true, Bool.false_eq_true, if_false]
      (try dsimp only)
      rw [hn]
      refine ⟨?_, ?_, ?_⟩ <;> simp_all
    · have h0 : r.enabled = false := by simpa using he
      simp [h0, hn]
  | ecn now =>
    unfold Resume.step Resume.on_ecn Resume.on_congestion
    by_cases he : r.enabled
    · simp only [he, Bool.not_true, Bool.false_eq_true, if_false]
      rw [hn]
      refine ⟨?_, ?_, ?_⟩ <;> simp_all
    · have h0 : r.enabled = false := by simpa using he
      simp [h0, hn]
  | packetloss now =>
    unfold Resume.step Resume.on_packetloss Resume.on_congestion
    by_cases he : r.enabled
    · simp only [he, Bool.not_true, Bool.false_eq_true, if_false]
      rw [hn]
      refine ⟨?_, ?_, ?_⟩ <;> simp_all
    · have h0 : r.enabled = false := by simpa using he
      simp [h0, hn]

/-- Helper: from Normal, the phase stays Normal across any operation
sequence. -/
theorem run_normal (r : Resume) (ops : List ROp) (hn : r.state = RState.normal) :
    (r.run ops).state = RState.normal := by
  induction ops generalizing r with
  | nil => exact hn
  | cons op rest ih =>
    have hstep := step_normal r op hn
    exact ih (r.step op).1 hstep.1

/-- C6: for every careful-resume machine and every operation, the phase
moves only along the documented one-directional edges (forward chain
Reconnaissance → Jumping → Unvalidated → Validating → Normal with the
forward skips to Normal, plus the sole reversion path
Unvalidated/Validating → SafeRetreat → Normal); once the phase is
Normal, every operation - and hence every subsequent operation
sequence - leaves the phase Normal and proposes neither a window nor a
threshold. -/
theorem c6_phase_invariant :
    (∀ (r : Resume) (op : ROp),
      allowedEdge r.state.tag ((r.step op).1.state.tag))
    ∧ (∀ (r : Resume) (op : ROp), r.state = RState.normal →
      (r.step op).1.state = RState.normal
      ∧ (r.step op).2.1 = none ∧ (r.step op).2.2 = none)
    ∧ (∀ (r : Resume) (ops : List ROp), r.state = RState.normal →
      (r.run ops).state = RState.normal) :=
  ⟨step_edge, step_normal, run_normal⟩

/-- C6 witness: a concrete Normal-phase machine acking a packet stays in
Normal with no proposals, and a concrete Reconnaissance step takes an
allowed edge. -/
theorem c6_phase_invariant_witness :
    (({ resumeC1 with state := RState.normal } : Resume).step
        (ROp.ack 1 100 0 0 0 0 0)).1.state = RState.normal
    ∧ allowedEdge resumeC1.state.tag
        ((resumeC1.step (ROp.ecn 0)).1.state.tag) :=
  ⟨(c6_phase_invariant.2.1 { resumeC1 with state := RState.normal }
      (ROp.ack 1 100 0 0 0 0 0) rfl).1,
   c6_phase_invariant.1 resumeC1 (ROp.ecn 0)⟩

/-- C8: while disabled, every careful-resume operation and every
HyStart++ operation leaves the structure unchanged and returns the
no-change result, and a disabled detector's `cwnd_increase` returns its
input unchanged, for all argument values. -/
theorem c8_disabled_noop (r : Resume) (h : HystartPP)
    (cwnd largest rtt flightsize now ackPn ackLen initial_cwnd increase mds : Nat)
    (al : Bool) (hre : r.enabled = false) (hhe : h.enabled = false) :
    r.on_sent cwnd largest rtt flightsize al now = (r, none)
    ∧ r.on_ack ackPn ackLen rtt flightsize cwnd initial_cwnd now = (r, none, none)
    ∧ r.on_ecn now = (r, none)
    ∧ r.on_packetloss now = (r, none)
    ∧ h.on_sent largest = h
    ∧ h.on_ack ackPn rtt now = h
    ∧ h.on_congestion = h
    ∧ h.cwnd_increase increase mds = increase := by
  unfold Resume.on_sent Resume.on_ack Resume.on_ecn Resume.on_packetloss
    Resume.on_congestion HystartPP.on_sent HystartPP.on_ack
    HystartPP.on_congestion HystartPP.cwnd_increase
  rw [hre, hhe]
  simp

/-- C8 witness: the canonical disabled instances with concrete
arguments. -/
theorem c8_disabled_noop_witness :
    Resume.disabled.on_sent 1 2 3 4 false 5 = (Resume.disabled, none)
    ∧ HystartPP.disabled.cwnd_increase 7 9 = 7 :=
  ⟨(c8_disabled_noop Resume.disabled HystartPP.disabled 1 2 3 4 5 6 7 8 7 9
      false rfl rfl).1,
   (c8_disabled_noop Resume.disabled HystartPP.disabled 1 2 3 4 5 6 7 8 7 9
      false rfl rfl).2.2.2.2.2.2.2⟩

/-- C10: the orchestrator's `on_packet_sent` always invokes careful
resume with `app_limited = false` - the resulting resume state and the
window it applies to the strategy are exactly those of
`Resume::on_sent` called with `app_limited = false` - and with that
argument `Resume::on_sent` coincides with the same function with the
application-limited early return deleted: through the orchestrator the
application-limited branch is never taken. -/
theorem c10_app_limited_dead :
    (∀ (s : PacketSender) (ccCwnd0 ccCwnd1 ccBif1 pn len : Nat) (ae : Bool)
        (ts rtt now : Nat),
      (s.on_packet_sent ccCwnd0 ccCwnd1 ccBif1 pn len ae ts rtt now).1.resume
          = (s.resume.on_sent ccCwnd1 pn rtt ccBif1 false now).1
      ∧ (s.on_packet_sent ccCwnd0 ccCwnd1 ccBif1 pn len ae ts rtt now).2
          = (s.resume.on_sent ccCwnd1 pn rtt ccBif1 false now).2)
    ∧ (∀ (r : Resume) (cwnd largest rtt flightsize now : Nat),
      r.on_sent cwnd largest rtt flightsize false now
        = r.on_sent_no_app_limited cwnd largest rtt flightsize now) := by
  constructor
  · intro s ccCwnd0 ccCwnd1 ccBif1 pn len ae ts rtt now
    exact ⟨rfl, rfl⟩
  · intro r cwnd largest rtt flightsize now
    unfold Resume.on_sent Resume.on_sent_no_app_limited
    by_cases he : r.enabled
    · simp [he]
    · have h0 : r.enabled = false := by simpa using he
      simp [h0]

end Neqo
